import Mathlib

/-!
Shallow embedding of the crawl-state tracker of the repository
(`crawler/prototypes/data_manager.py`, `crawler/prototypes/web_service.py`,
`crawler/prototypes/utils.py`) and proofs about its specification claims.

Modelling conventions:
* SQL rows become Lean structures; each table is a `List` inside `WebCrawlerDB`,
  appended in insertion order (SQLite autoincrement ids come from per-table
  counters kept in the state).
* Wall-clock timestamps (`func.now()`, `datetime.now`, `datetime.utcnow`)
  become a `Nat` logical clock stored in the state and bumped by every
  timestamp-assigning transaction.
* A URL is modelled as the result of `urllib.parse.urlparse`: a record with
  `scheme`, `netloc` and `path` components, plus a `parse_error` flag for the
  (rare) inputs on which `urlparse` raises `ValueError`.
* Python exceptions become an explicit error type `PyError`; a function that
  may raise returns `Except PyError _`.
-/

namespace Crawler

/-- Result of `urllib.parse.urlparse` on a URL string: the components the
repository inspects (`scheme`, `netloc`, `path`) together with a flag marking
inputs on which parsing itself raises `ValueError`. -/
structure Url where
  scheme : String
  netloc : String
  path : String
  parse_error : Bool
deriving DecidableEq

/-- `utils.is_valid_url`: `urlparse` succeeds and both `scheme` and `netloc`
are non-empty (Python string truthiness in `all([result.scheme, result.netloc])`);
the `except ValueError` branch returns `False`. -/
def is_valid_url (url : Url) : Bool :=
  !url.parse_error && !(url.scheme == "") && !(url.netloc == "")

/-- `utils.get_url_domain`: the `netloc` component of the parsed URL. -/
def get_url_domain (url : Url) : String :=
  url.netloc

/-- `data_manager.CrawlStatus` enum. -/
inductive CrawlStatus where
  | queued
  | crawling
  | completed
  | failed
deriving DecidableEq

/-- A row of the `domains` table (`data_manager.Domain`). -/
structure Domain where
  id : Nat
  domain : String
  created_at : Nat
deriving DecidableEq

/-- A row of the `pages` table (`data_manager.Page`). -/
structure Page where
  id : Nat
  url : Url
  domain_id : Nat
  status : CrawlStatus
  content_markdown : Option String
  title : Option String
  created_at : Nat
  updated_at : Nat
deriving DecidableEq

/-- A row of the `crawl_history` table (`data_manager.CrawlHistory`). -/
structure CrawlHistory where
  id : Nat
  page_id : Nat
  status : String
  crawled_at : Nat
  response_code : Option Nat
  error_message : Option String
  content_size : Option Nat
  crawl_duration_ms : Option Nat
deriving DecidableEq

/-- `data_manager.Statistics` dataclass. -/
structure Statistics where
  total_pages : Nat
  queued : Nat
  crawling : Nat
  completed : Nat
  failed : Nat
  total_domains : Nat
deriving DecidableEq

/-- `data_manager.DomainList` dataclass. -/
structure DomainList where
  page : Nat
  per_page : Nat
  total : Nat
  total_pages : Nat
  domains : List Domain
deriving DecidableEq

/-- The persistent state owned by `data_manager.WebCrawlerDB`: the three
tables, their autoincrement counters, and the logical clock. -/
structure WebCrawlerDB where
  domains : List Domain
  pages : List Page
  history : List CrawlHistory
  next_domain_id : Nat
  next_page_id : Nat
  next_history_id : Nat
  clock : Nat
deriving DecidableEq

/-- A freshly created database (`Base.metadata.create_all` on a new file). -/
def emptyDB : WebCrawlerDB :=
  { domains := [], pages := [], history := [],
    next_domain_id := 1, next_page_id := 1, next_history_id := 1, clock := 0 }

/-- `WebCrawlerDB.add_domain`: return the existing row for `name` if any,
otherwise insert a new `Domain` row and return it. -/
def add_domain (db : WebCrawlerDB) (name : String) : Domain × WebCrawlerDB :=
  match db.domains.find? (fun d => d.domain == name) with
  | some existing => (existing, db)
  | none =>
    let new_domain : Domain :=
      { id := db.next_domain_id, domain := name, created_at := db.clock }
    (new_domain,
      { db with
          domains := db.domains ++ [new_domain]
          next_domain_id := db.next_domain_id + 1
          clock := db.clock + 1 })

/-- `WebCrawlerDB.add_page`: return the existing row for `url` if any,
otherwise get-or-create the domain row (internal `add_domain` call) and insert
a new `Page` row referencing it.  The Python default for `status` is
`CrawlStatus.QUEUED`; call sites that rely on the default pass
`CrawlStatus.queued` explicitly here. -/
def add_page (db : WebCrawlerDB) (url : Url) (domain : String)
    (status : CrawlStatus) : Page × WebCrawlerDB :=
  match db.pages.find? (fun p => decide (p.url = url)) with
  | some existing => (existing, db)
  | none =>
    let pair := add_domain db domain
    let domain_obj := pair.1
    let db1 := pair.2
    let new_page : Page :=
      { id := db1.next_page_id, url := url, domain_id := domain_obj.id,
        status := status, content_markdown := none, title := none,
        created_at := db1.clock, updated_at := db1.clock }
    (new_page,
      { db1 with
          pages := db1.pages ++ [new_page]
          next_page_id := db1.next_page_id + 1
          clock := db1.clock + 1 })

/-- Replace the first page whose `url` matches by `f` applied to it
(the single row returned by `select ... where Page.url == url`). -/
def updateFirstPage (ps : List Page) (url : Url) (f : Page → Page) : List Page :=
  match ps with
  | [] => []
  | p :: rest =>
    if p.url = url then f p :: rest else p :: updateFirstPage rest url f

/-- `WebCrawlerDB.update_page_status`: set the page's status and
updated-timestamp; no-op when no page has this `url`. -/
def update_page_status (db : WebCrawlerDB) (url : Url) (status : CrawlStatus) :
    WebCrawlerDB :=
  match db.pages.find? (fun p => decide (p.url = url)) with
  | none => db
  | some _ =>
    { db with
        pages := updateFirstPage db.pages url
          (fun p => { p with status := status, updated_at := db.clock })
        clock := db.clock + 1 }

/-- `WebCrawlerDB.save_page_content`: set content/title, mark the page
COMPLETED and refresh its updated-timestamp; no-op when no page has this
`url`. -/
def save_page_content (db : WebCrawlerDB) (url : Url) (markdown : String)
    (title : Option String) : WebCrawlerDB :=
  match db.pages.find? (fun p => decide (p.url = url)) with
  | none => db
  | some _ =>
    { db with
        pages := updateFirstPage db.pages url
          (fun p => { p with content_markdown := some markdown, title := title,
                             status := CrawlStatus.completed,
                             updated_at := db.clock })
        clock := db.clock + 1 }

/-- `WebCrawlerDB.add_crawl_history`: unconditionally insert one immutable
history row. -/
def add_crawl_history (db : WebCrawlerDB) (page_id : Nat) (status : String)
    (response_code : Option Nat) (error_message : Option String)
    (content_size : Option Nat) (crawl_duration_ms : Option Nat) :
    WebCrawlerDB :=
  let row : CrawlHistory :=
    { id := db.next_history_id, page_id := page_id, status := status,
      crawled_at := db.clock, response_code := response_code,
      error_message := error_message, content_size := content_size,
      crawl_duration_ms := crawl_duration_ms }
  { db with
      history := db.history ++ [row]
      next_history_id := db.next_history_id + 1
      clock := db.clock + 1 }

/-- `WebCrawlerDB.get_page_details`: the page with this `url`, or absent. -/
def get_page_details (db : WebCrawlerDB) (url : Url) : Option Page :=
  db.pages.find? (fun p => decide (p.url = url))

/-- `WebCrawlerDB.get_stats`: per-status page counts plus totals, computed
from the current table contents. -/
def get_stats (db : WebCrawlerDB) : Statistics :=
  { total_pages := db.pages.length
    queued := db.pages.countP (fun p => decide (p.status = CrawlStatus.queued))
    crawling := db.pages.countP (fun p => decide (p.status = CrawlStatus.crawling))
    completed := db.pages.countP (fun p => decide (p.status = CrawlStatus.completed))
    failed := db.pages.countP (fun p => decide (p.status = CrawlStatus.failed))
    total_domains := db.domains.length }

/-- The ordering used by `get_all_domains`: `ORDER BY created_at DESC`. -/
def createdDesc (a b : Domain) : Prop :=
  b.created_at ≤ a.created_at

instance : DecidableRel createdDesc := fun a b => Nat.decLe b.created_at a.created_at

instance : IsTotal Domain createdDesc :=
  ⟨fun a b => Nat.le_total b.created_at a.created_at⟩

instance : IsTrans Domain createdDesc :=
  ⟨fun _ _ _ hab hbc => Nat.le_trans hbc hab⟩

/-- `WebCrawlerDB.get_all_domains`: paginated domains, newest first
(`ORDER BY created_at DESC OFFSET (page-1)*per_page LIMIT per_page`), with
`total_pages = ceil(total / per_page)` when `per_page > 0` and `1`
otherwise.  The Python defaults are `page = 1`, `per_page = 20`. -/
def get_all_domains (db : WebCrawlerDB) (page : Nat) (per_page : Nat) :
    DomainList :=
  let total := db.domains.length
  let total_pages := if per_page > 0 then (total + per_page - 1) / per_page else 1
  let ordered := List.insertionSort createdDesc db.domains
  { page := page, per_page := per_page, total := total,
    total_pages := total_pages,
    domains := (ordered.drop ((page - 1) * per_page)).take per_page }

/-- The Python exception classes relevant to `web_service.crawl_page_url`:
`ValueError`, `pydantic.ValidationError` (a subclass of `ValueError`),
`RuntimeError`, and any other exception class escaping the fetch backend. -/
inductive PyError where
  | valueError (msg : String)
  | validationError (msg : String)
  | runtimeError (msg : String)
  | otherError (msg : String)
deriving DecidableEq

/-- Whether an `except ValueError` clause catches this exception
(`pydantic.ValidationError` subclasses `ValueError`). -/
def PyError.caughtByValueError : PyError → Bool
  | .valueError _ => true
  | .validationError _ => true
  | .runtimeError _ => false
  | .otherError _ => false

/-- The fixed configuration of the `firecrawl.scrape` call in
`crawl_page_url`. -/
structure ScrapeConfig where
  formats : List String
  only_main_content : Bool
  fast_mode : Bool
  headers : List (String × String)
deriving DecidableEq

/-- The argument values `crawl_page_url` passes to `firecrawl.scrape`. -/
def crawlScrapeConfig : ScrapeConfig :=
  { formats := ["markdown"], only_main_content := true, fast_mode := false,
    headers := [("User-Agent", "firecrawl-test-agent"),
                ("Content-Type", "application/json")] }

/-- Outcome of one `firecrawl.scrape` invocation: a scrape document whose
`markdown` field may be absent, or a raised exception. -/
inductive FetchResult where
  | ok (markdown : Option String)
  | exn (e : PyError)
deriving DecidableEq

/-- `web_service.PageDTO` (pydantic, `from_attributes`): `content_markdown`
must be a string (never absent), `updated_at` a timestamp. -/
structure PageDTO where
  content_markdown : String
  updated_at : Nat
deriving DecidableEq

/-- `PageDTO.model_validate` applied to the result of `get_page_details`:
pydantic raises `ValidationError` when the input is `None` or when its
`content_markdown` attribute is `None`. -/
def PageDTO.model_validate : Option Page → Except PyError PageDTO
  | none => .error (.validationError "PageDTO input is not a Page")
  | some p =>
    match p.content_markdown with
    | none => .error (.validationError "PageDTO content_markdown must be a string")
    | some c => .ok { content_markdown := c, updated_at := p.updated_at }

/-- Modelled from the spec: `WebCrawlerDB.domain_exists` is called by the
orchestrator (`web_service.py`) but no definition for it appears in the
provided sources.  Per the spec's data model — Domain identity is the unique
`domain` string — a domain is registered exactly when a Domain row with that
name exists. -/
def domain_exists (db : WebCrawlerDB) (name : String) : Bool :=
  (db.domains.find? (fun d => d.domain == name)).isSome

/-- One invocation of the external fetch backend, recording the database
state at the instant of the call.  The trace of these calls makes
"the backend was invoked" and "the page's status while the fetch was in
flight" observable in theorems. -/
structure FetchCall where
  url : Url
  db_at_call : WebCrawlerDB
deriving DecidableEq

/-- `web_service.WebService`: the database plus the fetch backend
(`self.firecrawl.scrape`), modelled as a function from the URL and the scrape
configuration to a fetch outcome. -/
structure WebService where
  database : WebCrawlerDB
  firecrawl : Url → ScrapeConfig → FetchResult

/-- `WebService.is_page_url_crawled`. -/
def is_page_url_crawled (svc : WebService) (url : Url) : Bool :=
  (get_page_details svc.database url).isSome

/-- `WebService.get_collected_domains`: `get_all_domains` at the Python
default `per_page = 20`. -/
def get_collected_domains (svc : WebService) (page : Nat) : DomainList :=
  get_all_domains svc.database page 20

/-- `WebService.crawl_page_url`, step for step: URL validation; idempotency
gate on `get_page_details`; on a fresh URL the `domain_exists` check,
`add_domain`, `add_page` (status defaulting to QUEUED), the `firecrawl.scrape`
call inside `try ... except ValueError`, the empty-content check raising
`RuntimeError` after marking the page FAILED, `save_page_content` on success;
finally `PageDTO.model_validate` over the re-queried page.  Returns the
Python result (value or raised exception), the database state after the call,
and the trace of backend invocations the call performed. -/
def crawl_page_url (svc : WebService) (url : Url) :
    Except PyError PageDTO × WebCrawlerDB × List FetchCall :=
  if !is_valid_url url then
    (.error (.valueError "Invalid URL provided"), svc.database, [])
  else
    match get_page_details svc.database url with
    | some _ =>
      (PageDTO.model_validate (get_page_details svc.database url),
       svc.database, [])
    | none =>
      let domain := get_url_domain url
      let db1 :=
        if domain_exists svc.database domain then svc.database
        else (add_domain svc.database domain).2
      let db2 := (add_page db1 url domain CrawlStatus.queued).2
      let calls : List FetchCall := [{ url := url, db_at_call := db2 }]
      match svc.firecrawl url crawlScrapeConfig with
      | .exn e =>
        if e.caughtByValueError then
          (.error e, update_page_status db2 url CrawlStatus.failed, calls)
        else
          (.error e, db2, calls)
      | .ok markdown =>
        let is_crawl_failed := markdown.isNone || (markdown.getD "").length == 0
        if is_crawl_failed then
          (.error (.runtimeError "Crawling failed on the backend."),
           update_page_status db2 url CrawlStatus.failed, calls)
        else
          let db3 := save_page_content db2 url (markdown.getD "") none
          (PageDTO.model_validate (get_page_details db3 url), db3, calls)

/-- The status stored for `url` after an operation returning a database. -/
def page_status (db : WebCrawlerDB) (url : Url) : Option CrawlStatus :=
  (get_page_details db url).map Page.status

/-- A well-formed URL, `urlparse("https://example.com/a")`. -/
def urlA : Url :=
  { scheme := "https", netloc := "example.com", path := "/a", parse_error := false }

/-- The spec's malformed input: `urlparse("not-a-url")` yields an empty
scheme and an empty netloc. -/
def notAUrl : Url :=
  { scheme := "", netloc := "", path := "not-a-url", parse_error := false }

/-- A fetch backend returning the content of the spec's successful-crawl
scenario. -/
def backendContent : Url → ScrapeConfig → FetchResult :=
  fun _ _ => FetchResult.ok (some "# Title\nBody")

/-- A fetch backend returning empty content. -/
def backendEmpty : Url → ScrapeConfig → FetchResult :=
  fun _ _ => FetchResult.ok (some "")

/-- A fetch backend raising a transport-level exception that is not a
`ValueError`. -/
def backendTransportFault : Url → ScrapeConfig → FetchResult :=
  fun _ _ => FetchResult.exn (PyError.otherError "connection reset by backend")

/-- A service over a freshly created database. -/
def freshService (backend : Url → ScrapeConfig → FetchResult) : WebService :=
  { database := emptyDB, firecrawl := backend }

/-- A service whose database already holds a QUEUED page for `urlA`. -/
def svcReg : WebService :=
  { database := (add_page emptyDB urlA "example.com" CrawlStatus.queued).2,
    firecrawl := backendContent }

/-- The database state reached by the registration prefix of a fresh crawl
(`domain_exists` check, `add_domain`, `add_page` with the QUEUED default),
exactly as `crawl_page_url` computes it before invoking the backend. -/
def registeredDB (db : WebCrawlerDB) (u : Url) : WebCrawlerDB :=
  (add_page (if domain_exists db (get_url_domain u) then db
      else (add_domain db (get_url_domain u)).2) u (get_url_domain u)
    CrawlStatus.queued).2

/-- Whether a backend outcome is a failure mode: absent or empty content,
or a raised exception. -/
def fetchFailed : FetchResult → Bool
  | FetchResult.ok none => true
  | FetchResult.ok (some md) => md.length == 0
  | FetchResult.exn _ => true

/-- The page status `crawl_page_url` stores for a fresh URL, as a function
of the backend outcome: FAILED for absent/empty content and for exceptions
caught by `except ValueError`; COMPLETED for non-empty content; and QUEUED
(left untouched) for every other exception class. -/
def expectedStatusAfterFetch : FetchResult → CrawlStatus
  | FetchResult.ok none => CrawlStatus.failed
  | FetchResult.ok (some md) =>
    if md.length == 0 then CrawlStatus.failed else CrawlStatus.completed
  | FetchResult.exn e =>
    if e.caughtByValueError then CrawlStatus.failed else CrawlStatus.queued

/-- One mutating operation of the persistence store `WebCrawlerDB`. -/
inductive StoreOp where
  | addDomain (name : String)
  | addPage (url : Url) (domain : String) (status : CrawlStatus)
  | updateStatus (url : Url) (status : CrawlStatus)
  | saveContent (url : Url) (markdown : String) (title : Option String)
  | addHistory (page_id : Nat) (status : String) (response_code : Option Nat)
      (error_message : Option String) (content_size : Option Nat)
      (crawl_duration_ms : Option Nat)

/-- Apply one store operation to the database state. -/
def applyOp (db : WebCrawlerDB) : StoreOp → WebCrawlerDB
  | StoreOp.addDomain n => (add_domain db n).2
  | StoreOp.addPage u d s => (add_page db u d s).2
  | StoreOp.updateStatus u s => update_page_status db u s
  | StoreOp.saveContent u md t => save_page_content db u md t
  | StoreOp.addHistory pid s rc em cs cd =>
    add_crawl_history db pid s rc em cs cd

/-- Apply a sequence of store operations. -/
def applyOps (db : WebCrawlerDB) (ops : List StoreOp) : WebCrawlerDB :=
  ops.foldl applyOp db

/-- Referential integrity of the pages table: every Page row's `domain_id`
references an existing Domain row. -/
def RefIntegrity (db : WebCrawlerDB) : Prop :=
  ∀ p ∈ db.pages, ∃ d ∈ db.domains, d.id = p.domain_id

/-! ### Supporting lemmas about the store operations -/

theorem add_domain_pages (db : WebCrawlerDB) (n : String) :
    (add_domain db n).2.pages = db.pages := by
  unfold add_domain
  split <;> rfl

theorem add_domain_history (db : WebCrawlerDB) (n : String) :
    (add_domain db n).2.history = db.history := by
  unfold add_domain
  split <;> rfl

theorem add_domain_domains_sub (db : WebCrawlerDB) (n : String) :
    ∀ d ∈ db.domains, d ∈ (add_domain db n).2.domains := by
  intro d hd
  unfold add_domain
  split
  · exact hd
  · simp only [List.mem_append]
    exact Or.inl hd

theorem add_domain_fst_mem (db : WebCrawlerDB) (n : String) :
    (add_domain db n).1 ∈ (add_domain db n).2.domains := by
  unfold add_domain
  split
  · exact List.mem_of_find?_eq_some (by assumption)
  · simp

theorem get_page_details_add_domain (db : WebCrawlerDB) (n : String) (u : Url) :
    get_page_details (add_domain db n).2 u = get_page_details db u := by
  unfold get_page_details
  rw [add_domain_pages]

theorem find?_updateFirstPage (u : Url) (f : Page → Page)
    (hf : ∀ p, (f p).url = p.url) (ps : List Page) :
    (updateFirstPage ps u f).find? (fun p => decide (p.url = u))
      = (ps.find? (fun p => decide (p.url = u))).map f := by
  induction ps with
  | nil => rfl
  | cons p rest ih =>
    by_cases h : p.url = u
    · rw [updateFirstPage, if_pos h,
        List.find?_cons_of_pos _ (by simpa [hf] using h),
        List.find?_cons_of_pos _ (by simpa using h)]
      rfl
    · rw [updateFirstPage, if_neg h,
        List.find?_cons_of_neg _ (by simpa using h),
        List.find?_cons_of_neg _ (by simpa using h), ih]

theorem update_page_status_history (db : WebCrawlerDB) (u : Url) (s : CrawlStatus) :
    (update_page_status db u s).history = db.history := by
  unfold update_page_status
  split <;> rfl

theorem update_page_status_domains (db : WebCrawlerDB) (u : Url) (s : CrawlStatus) :
    (update_page_status db u s).domains = db.domains := by
  unfold update_page_status
  split <;> rfl

theorem save_page_content_history (db : WebCrawlerDB) (u : Url) (md : String)
    (t : Option String) : (save_page_content db u md t).history = db.history := by
  unfold save_page_content
  split <;> rfl

theorem save_page_content_domains (db : WebCrawlerDB) (u : Url) (md : String)
    (t : Option String) : (save_page_content db u md t).domains = db.domains := by
  unfold save_page_content
  split <;> rfl

theorem get_page_details_update_page_status (db : WebCrawlerDB) (u : Url)
    (s : CrawlStatus) :
    get_page_details (update_page_status db u s) u
      = (get_page_details db u).map
          (fun p => { p with status := s, updated_at := db.clock }) := by
  unfold update_page_status
  cases h : db.pages.find? (fun p => decide (p.url = u)) with
  | none =>
    simp only [get_page_details] at h ⊢
    simp [h]
  | some p =>
    simp only [get_page_details]
    rw [find?_updateFirstPage u
      (fun p => { p with status := s, updated_at := db.clock }) (fun _ => rfl)]

theorem get_page_details_save_page_content (db : WebCrawlerDB) (u : Url)
    (md : String) (t : Option String) :
    get_page_details (save_page_content db u md t) u
      = (get_page_details db u).map
          (fun p => { p with content_markdown := some md, title := t,
                             status := CrawlStatus.completed,
                             updated_at := db.clock }) := by
  unfold save_page_content
  cases h : db.pages.find? (fun p => decide (p.url = u)) with
  | none =>
    simp only [get_page_details] at h ⊢
    simp [h]
  | some p =>
    simp only [get_page_details]
    rw [find?_updateFirstPage u
      (fun p => { p with content_markdown := some md, title := t,
                         status := CrawlStatus.completed,
                         updated_at := db.clock }) (fun _ => rfl)]

theorem add_page_history (db : WebCrawlerDB) (u : Url) (d : String)
    (s : CrawlStatus) : (add_page db u d s).2.history = db.history := by
  unfold add_page
  split
  · rfl
  · simp [add_domain_history]

theorem add_page_fresh (db : WebCrawlerDB) (u : Url) (d : String) (s : CrawlStatus)
    (hnew : get_page_details db u = none) :
    (add_page db u d s).1.url = u ∧
    (add_page db u d s).1.status = s ∧
    (add_page db u d s).1.content_markdown = none ∧
    get_page_details (add_page db u d s).2 u = some (add_page db u d s).1 := by
  unfold get_page_details at hnew
  unfold add_page
  rw [hnew]
  refine ⟨rfl, rfl, rfl, ?_⟩
  simp only [get_page_details, List.find?_append, add_domain_pages, hnew,
    Option.none_or]
  rw [List.find?_cons_of_pos _ (by simp)]

/-- The registration prefix of a fresh crawl (`domain_exists` check,
`add_domain`, `add_page`): it appends no history row and stores a QUEUED,
content-free page for the URL. -/
theorem register_fresh (db : WebCrawlerDB) (u : Url) (d : String)
    (hnew : get_page_details db u = none) :
    (add_page (if domain_exists db d then db else (add_domain db d).2) u d
        CrawlStatus.queued).2.history = db.history ∧
    ∃ np : Page,
      get_page_details (add_page (if domain_exists db d then db
          else (add_domain db d).2) u d CrawlStatus.queued).2 u = some np ∧
      np.url = u ∧ np.status = CrawlStatus.queued ∧
      np.content_markdown = none := by
  set db1 := if domain_exists db d then db else (add_domain db d).2 with hdb1
  have h1 : get_page_details db1 u = none := by
    rw [hdb1]
    split
    · exact hnew
    · rw [get_page_details_add_domain]
      exact hnew
  have h2 : db1.history = db.history := by
    rw [hdb1]
    split
    · rfl
    · exact add_domain_history db d
  obtain ⟨hu, hs, hc, hg⟩ := add_page_fresh db1 u d CrawlStatus.queued h1
  exact ⟨by rw [add_page_history]; exact h2,
    (add_page db1 u d CrawlStatus.queued).1, hg, hu, hs, hc⟩

/-- `register_fresh` restated through `registeredDB`. -/
theorem registeredDB_spec (db : WebCrawlerDB) (u : Url)
    (hnew : get_page_details db u = none) :
    (registeredDB db u).history = db.history ∧
    ∃ np : Page,
      get_page_details (registeredDB db u) u = some np ∧
      np.url = u ∧ np.status = CrawlStatus.queued ∧
      np.content_markdown = none := by
  unfold registeredDB
  exact register_fresh db u (get_url_domain u) hnew

/-- Unfolding of `crawl_page_url` on a valid, unregistered URL: the
registration prefix runs, the backend is invoked once on the registered
state, and the backend outcome selects the branch. -/
theorem crawl_page_url_fresh_eq (svc : WebService) (u : Url)
    (hv : is_valid_url u = true)
    (hnew : get_page_details svc.database u = none) :
    crawl_page_url svc u =
      (match svc.firecrawl u crawlScrapeConfig with
       | FetchResult.exn e =>
         if e.caughtByValueError then
           (Except.error e,
            update_page_status (registeredDB svc.database u) u CrawlStatus.failed,
            [{ url := u, db_at_call := registeredDB svc.database u }])
         else
           (Except.error e, registeredDB svc.database u,
            [{ url := u, db_at_call := registeredDB svc.database u }])
       | FetchResult.ok markdown =>
         if markdown.isNone || (markdown.getD "").length == 0 then
           (Except.error (PyError.runtimeError "Crawling failed on the backend."),
            update_page_status (registeredDB svc.database u) u CrawlStatus.failed,
            [{ url := u, db_at_call := registeredDB svc.database u }])
         else
           (PageDTO.model_validate (get_page_details
              (save_page_content (registeredDB svc.database u) u
                (markdown.getD "") none) u),
            save_page_content (registeredDB svc.database u) u
              (markdown.getD "") none,
            [{ url := u, db_at_call := registeredDB svc.database u }])) := by
  simp only [crawl_page_url, registeredDB, hv, Bool.not_true, hnew,
    Bool.false_eq_true, if_false]

/-- After a fresh crawl the URL is registered, whatever the backend did. -/
theorem crawl_page_url_registers (svc : WebService) (u : Url)
    (hv : is_valid_url u = true)
    (hnew : get_page_details svc.database u = none) :
    (get_page_details (crawl_page_url svc u).2.1 u).isSome = true := by
  obtain ⟨hhist, np, hget, hurl, hstat, hcont⟩ :=
    registeredDB_spec svc.database u hnew
  rw [crawl_page_url_fresh_eq svc u hv hnew]
  cases hfr : svc.firecrawl u crawlScrapeConfig with
  | exn e =>
    by_cases he : e.caughtByValueError = true <;>
      simp [he, get_page_details_update_page_status, hget]
  | ok markdown =>
    by_cases hm : (markdown.isNone || (markdown.getD "").length == 0) = true <;>
      simp [hm, get_page_details_update_page_status,
        get_page_details_save_page_content, hget]

/-- Membership in `updateFirstPage`: an element is an original page or the
image of an original page under the update. -/
theorem mem_updateFirstPage (ps : List Page) (u : Url) (f : Page → Page)
    (q : Page) (hq : q ∈ updateFirstPage ps u f) :
    q ∈ ps ∨ ∃ p ∈ ps, q = f p := by
  induction ps with
  | nil => simp [updateFirstPage] at hq
  | cons p rest ih =>
    by_cases h : p.url = u
    · rw [updateFirstPage, if_pos h] at hq
      rcases List.mem_cons.mp hq with h1 | h1
      · exact Or.inr ⟨p, List.mem_cons_self p rest, h1⟩
      · exact Or.inl (List.mem_cons_of_mem _ h1)
    · rw [updateFirstPage, if_neg h] at hq
      rcases List.mem_cons.mp hq with h1 | h1
      · exact Or.inl (h1 ▸ List.mem_cons_self p rest)
      · rcases ih h1 with h2 | ⟨r, hr, hqr⟩
        · exact Or.inl (List.mem_cons_of_mem _ h2)
        · exact Or.inr ⟨r, List.mem_cons_of_mem _ hr, hqr⟩

/-- Each store operation preserves referential integrity; in particular
`add_page` makes its own `add_domain` call when the domain is missing. -/
theorem applyOp_preserves_RefIntegrity (db : WebCrawlerDB) (op : StoreOp)
    (h : RefIntegrity db) : RefIntegrity (applyOp db op) := by
  cases op with
  | addDomain n =>
    intro p hp
    rw [show applyOp db (StoreOp.addDomain n) = (add_domain db n).2 from rfl,
      add_domain_pages] at hp
    obtain ⟨d, hdm, hid⟩ := h p hp
    exact ⟨d, add_domain_domains_sub db n d hdm, hid⟩
  | addPage u dn s =>
    show RefIntegrity (add_page db u dn s).2
    unfold add_page
    split
    · exact h
    · intro q hq
      simp only [List.mem_append, add_domain_pages, List.mem_singleton] at hq
      rcases hq with h1 | rfl
      · obtain ⟨d, hdm, hid⟩ := h q h1
        exact ⟨d, add_domain_domains_sub db dn d hdm, hid⟩
      · exact ⟨(add_domain db dn).1, add_domain_fst_mem db dn, rfl⟩
  | updateStatus u s =>
    show RefIntegrity (update_page_status db u s)
    unfold update_page_status
    split
    · exact h
    · intro q hq
      rcases mem_updateFirstPage db.pages u _ q hq with h1 | ⟨p, hpm, rfl⟩
      · exact h q h1
      · obtain ⟨d, hdm, hid⟩ := h p hpm
        exact ⟨d, hdm, hid⟩
  | saveContent u md t =>
    show RefIntegrity (save_page_content db u md t)
    unfold save_page_content
    split
    · exact h
    · intro q hq
      rcases mem_updateFirstPage db.pages u _ q hq with h1 | ⟨p, hpm, rfl⟩
      · exact h q h1
      · obtain ⟨d, hdm, hid⟩ := h p hpm
        exact ⟨d, hdm, hid⟩
  | addHistory pid s rc em cs cd =>
    intro q hq
    exact h q hq

/-! ### Claim theorems -/

/-- **C3.** For every malformed URL (parsing fails, or the scheme or the
host component is empty, so `is_valid_url` is false), `crawl_page_url`
raises `ValueError` and performs no store mutation: the resulting store
state is exactly the prior state — so no Domain, Page, or CrawlHistory row
is created — and the fetch backend is never invoked. -/
theorem invalid_url_rejected_without_mutation (svc : WebService) (u : Url)
    (h : is_valid_url u = false) :
    (crawl_page_url svc u).1
        = Except.error (PyError.valueError "Invalid URL provided") ∧
    (crawl_page_url svc u).2.1 = svc.database ∧
    (crawl_page_url svc u).2.2 = [] := by
  simp [crawl_page_url, h]

/-- Witness for C3 at the spec's concrete input `"not-a-url"`. -/
theorem invalid_url_rejected_without_mutation_witness :
    is_valid_url notAUrl = false ∧
    ((crawl_page_url (freshService backendContent) notAUrl).1
        = Except.error (PyError.valueError "Invalid URL provided") ∧
      (crawl_page_url (freshService backendContent) notAUrl).2.1
        = (freshService backendContent).database ∧
      (crawl_page_url (freshService backendContent) notAUrl).2.2 = []) :=
  ⟨by decide,
    invalid_url_rejected_without_mutation (freshService backendContent) notAUrl
      (by decide)⟩

/-- The four page statuses partition the pages table. -/
theorem countP_status_partition (ps : List Page) :
    ps.countP (fun p => decide (p.status = CrawlStatus.queued))
      + ps.countP (fun p => decide (p.status = CrawlStatus.crawling))
      + ps.countP (fun p => decide (p.status = CrawlStatus.completed))
      + ps.countP (fun p => decide (p.status = CrawlStatus.failed))
      = ps.length := by
  induction ps with
  | nil => rfl
  | cons p t ih =>
    cases h : p.status <;>
      simp only [List.countP_cons, h, List.length_cons] <;>
      simp <;> omega

/-- **C6.** At every quiescent point, the `Statistics` returned by
`get_stats` satisfy `queued + crawling + completed + failed = total_pages`,
`total_pages` equals the number of Page rows, and `total_domains` equals
the number of Domain rows. -/
theorem get_stats_consistent (db : WebCrawlerDB) :
    (get_stats db).queued + (get_stats db).crawling
        + (get_stats db).completed + (get_stats db).failed
        = (get_stats db).total_pages ∧
    (get_stats db).total_pages = db.pages.length ∧
    (get_stats db).total_domains = db.domains.length := by
  refine ⟨?_, rfl, rfl⟩
  simpa [get_stats] using countP_status_partition db.pages

/-- **C7.** `add_page` is idempotent per URL: whenever a page for `url`
already exists it is returned unchanged with the store untouched (so its
identity is preserved, no second row is created, and a status that has
advanced beyond QUEUED is never reset); a second call right after a first
returns the first call's row and state; and a newly created page carries
the requested status — `CrawlStatus.queued` at every call site that relies
on the Python default. -/
theorem add_page_idempotent (db : WebCrawlerDB) (u : Url) (d1 d2 : String)
    (s1 s2 : CrawlStatus) :
    (∀ p, get_page_details db u = some p → add_page db u d2 s2 = (p, db)) ∧
    (add_page (add_page db u d1 s1).2 u d2 s2).1 = (add_page db u d1 s1).1 ∧
    (add_page (add_page db u d1 s1).2 u d2 s2).2 = (add_page db u d1 s1).2 ∧
    (get_page_details db u = none → (add_page db u d1 s1).1.status = s1) := by
  have key : ∀ db' : WebCrawlerDB, ∀ p, get_page_details db' u = some p →
      add_page db' u d2 s2 = (p, db') := by
    intro db' p hp
    unfold get_page_details at hp
    unfold add_page
    rw [hp]
  have hafter : get_page_details (add_page db u d1 s1).2 u
      = some (add_page db u d1 s1).1 := by
    cases hfind : db.pages.find? (fun q => decide (q.url = u)) with
    | some p =>
      have heq : add_page db u d1 s1 = (p, db) := by
        unfold add_page
        rw [hfind]
      rw [heq]
      exact hfind
    | none => exact (add_page_fresh db u d1 s1 hfind).2.2.2
  have h2 := key (add_page db u d1 s1).2 (add_page db u d1 s1).1 hafter
  exact ⟨key db, by rw [h2], by rw [h2],
    fun hnew => (add_page_fresh db u d1 s1 hnew).2.1⟩

/-- Witness for C7: a concrete second `add_page` returns the first call's
row and state, and a fresh page starts QUEUED. -/
theorem add_page_idempotent_witness :
    (add_page (add_page emptyDB urlA "example.com" CrawlStatus.queued).2
        urlA "example.com" CrawlStatus.queued).2
      = (add_page emptyDB urlA "example.com" CrawlStatus.queued).2 ∧
    (add_page emptyDB urlA "example.com" CrawlStatus.queued).1.status
      = CrawlStatus.queued :=
  ⟨(add_page_idempotent emptyDB urlA "example.com" "example.com"
      CrawlStatus.queued CrawlStatus.queued).2.2.1,
   (add_page_idempotent emptyDB urlA "example.com" "example.com"
      CrawlStatus.queued CrawlStatus.queued).2.2.2 (by decide)⟩

/-- **C5.** For every store with `N` domains, page size `k > 0` and page
number `p` with `1 ≤ p ≤ ⌈N/k⌉`, `get_all_domains` returns exactly
`min k (max 0 (N - (p-1)·k))` domains, ordered by creation time descending,
and reports `total_pages = ⌈N/k⌉`. -/
theorem get_all_domains_paginates (db : WebCrawlerDB) (p k : Nat)
    (hk : 0 < k) (hp1 : 1 ≤ p) (hp2 : p ≤ db.domains.length ⌈/⌉ k) :
    (get_all_domains db p k).domains.length
        = min k (max 0 (db.domains.length - (p - 1) * k)) ∧
    List.Sorted createdDesc (get_all_domains db p k).domains ∧
    (get_all_domains db p k).total_pages = db.domains.length ⌈/⌉ k := by
  refine ⟨?_, ?_, ?_⟩
  · simp [get_all_domains, List.length_take, List.length_drop,
      List.length_insertionSort]
  · exact List.Pairwise.sublist
      ((List.take_sublist _ _).trans (List.drop_sublist _ _))
      (List.sorted_insertionSort createdDesc db.domains)
  · simp [get_all_domains, hk, Nat.ceilDiv_eq_add_pred_div]

/-- Witness for C5: three domains, page 2 of size 2 holds the one
remaining domain and `total_pages = 2`. -/
theorem get_all_domains_paginates_witness :
    0 < 2 ∧ 1 ≤ 2 ∧
    2 ≤ (add_domain (add_domain (add_domain emptyDB "a.com").2
        "b.com").2 "c.com").2.domains.length ⌈/⌉ 2 ∧
    ((get_all_domains (add_domain (add_domain (add_domain emptyDB
            "a.com").2 "b.com").2 "c.com").2 2 2).domains.length
        = min 2 (max 0 ((add_domain (add_domain (add_domain emptyDB
            "a.com").2 "b.com").2 "c.com").2.domains.length - (2 - 1) * 2)) ∧
      List.Sorted createdDesc (get_all_domains (add_domain (add_domain
          (add_domain emptyDB "a.com").2 "b.com").2 "c.com").2 2 2).domains ∧
      (get_all_domains (add_domain (add_domain (add_domain emptyDB
            "a.com").2 "b.com").2 "c.com").2 2 2).total_pages
        = (add_domain (add_domain (add_domain emptyDB "a.com").2
            "b.com").2 "c.com").2.domains.length ⌈/⌉ 2) :=
  ⟨by decide, by decide, by decide,
    get_all_domains_paginates _ 2 2 (by decide) (by decide) (by decide)⟩

/-- **C10.** Referential integrity of pages is self-maintained by page
creation: `add_page` itself registers the missing domain through its
internal `add_domain` call, so after any sequence of store operations on a
fresh database — even sequences that never register a domain before adding
its pages — every Page row's `domain_id` references an existing Domain
row. -/
theorem store_referential_integrity (ops : List StoreOp) :
    RefIntegrity (applyOps emptyDB ops) := by
  suffices h : ∀ db, RefIntegrity db → RefIntegrity (applyOps db ops) by
    refine h emptyDB ?_
    intro p hp
    simp [emptyDB] at hp
  induction ops with
  | nil => exact fun db h => h
  | cons op rest ih =>
    intro db h
    exact ih (applyOp db op) (applyOp_preserves_RefIntegrity db op h)

/-- Concrete instance of C10: adding a page under a never-registered domain
still yields a store with intact referential integrity. -/
theorem store_referential_integrity_witness :
    RefIntegrity (applyOps emptyDB
      [StoreOp.addPage urlA "example.com" CrawlStatus.queued]) :=
  store_referential_integrity
    [StoreOp.addPage urlA "example.com" CrawlStatus.queued]

/-- **C1 (amended).** For a valid URL not yet registered whose fetch
backend returns non-empty content, `crawl_page_url` returns that content
(with the stored updated-at timestamp) and the page's status becomes
COMPLETED — but, contrary to the original claim, no CrawlHistory row is
recorded: the orchestrator never calls `add_crawl_history`, so the history
table after the call equals the history table before it. -/
theorem successful_crawl (svc : WebService) (u : Url) (md : String)
    (hv : is_valid_url u = true)
    (hnew : get_page_details svc.database u = none)
    (hf : svc.firecrawl u crawlScrapeConfig = FetchResult.ok (some md))
    (hmd : md.length ≠ 0) :
    (∃ t, (crawl_page_url svc u).1
        = Except.ok { content_markdown := md, updated_at := t }) ∧
    page_status (crawl_page_url svc u).2.1 u = some CrawlStatus.completed ∧
    (crawl_page_url svc u).2.1.history = svc.database.history := by
  obtain ⟨hhist, np, hget, hurl, hstat, hcont⟩ :=
    registeredDB_spec svc.database u hnew
  have hsv := get_page_details_save_page_content
    (registeredDB svc.database u) u md none
  rw [hget] at hsv
  refine ⟨⟨(registeredDB svc.database u).clock, ?_⟩, ?_, ?_⟩
  · rw [crawl_page_url_fresh_eq svc u hv hnew, hf]
    simp [hmd, hsv, PageDTO.model_validate]
  · rw [crawl_page_url_fresh_eq svc u hv hnew, hf]
    simp [hmd, page_status, hsv]
  · rw [crawl_page_url_fresh_eq svc u hv hnew, hf]
    simp [hmd, save_page_content_history, hhist]

/-- Witness for C1 (amended) at the spec's scenario input. -/
theorem successful_crawl_witness :
    is_valid_url urlA = true ∧
    get_page_details (freshService backendContent).database urlA = none ∧
    (freshService backendContent).firecrawl urlA crawlScrapeConfig
        = FetchResult.ok (some "# Title\nBody") ∧
    "# Title\nBody".length ≠ 0 ∧
    ((∃ t, (crawl_page_url (freshService backendContent) urlA).1
        = Except.ok { content_markdown := "# Title\nBody", updated_at := t }) ∧
      page_status (crawl_page_url (freshService backendContent) urlA).2.1 urlA
        = some CrawlStatus.completed ∧
      (crawl_page_url (freshService backendContent) urlA).2.1.history
        = (freshService backendContent).database.history) :=
  ⟨by decide, by decide, rfl, by decide,
    successful_crawl (freshService backendContent) urlA "# Title\nBody"
      (by decide) (by decide) rfl (by decide)⟩

/-- **C1 counterexample.** At the spec's successful-crawl scenario input
the call returns the content and the page completes, yet the history table
is empty — there is no CrawlHistory row at all, let alone exactly one
success row. -/
theorem successful_crawl_no_history_row :
    (crawl_page_url (freshService backendContent) urlA).1
        = Except.ok { content_markdown := "# Title\nBody", updated_at := 2 } ∧
    page_status (crawl_page_url (freshService backendContent) urlA).2.1 urlA
        = some CrawlStatus.completed ∧
    ¬ ((crawl_page_url (freshService backendContent) urlA).2.1.history.length
        = 1) :=
  ⟨by rfl, by decide, by decide⟩

/-- **C2 (amended).** For a valid URL not yet registered whose fetch
backend returns empty or absent content, `crawl_page_url` raises the crawl
error (`RuntimeError("Crawling failed on the backend.")`) and the page's
status becomes FAILED — but, contrary to the original claim, no
CrawlHistory row is recorded and hence no error detail is persisted: the
history table after the call equals the history table before it. -/
theorem failed_crawl (svc : WebService) (u : Url) (markdown : Option String)
    (hv : is_valid_url u = true)
    (hnew : get_page_details svc.database u = none)
    (hf : svc.firecrawl u crawlScrapeConfig = FetchResult.ok markdown)
    (hempty : (markdown.isNone || (markdown.getD "").length == 0) = true) :
    (crawl_page_url svc u).1
        = Except.error (PyError.runtimeError "Crawling failed on the backend.") ∧
    page_status (crawl_page_url svc u).2.1 u = some CrawlStatus.failed ∧
    (crawl_page_url svc u).2.1.history = svc.database.history := by
  obtain ⟨hhist, np, hget, hurl, hstat, hcont⟩ :=
    registeredDB_spec svc.database u hnew
  rw [crawl_page_url_fresh_eq svc u hv hnew, hf]
  cases markdown with
  | none =>
    refine ⟨?_, ?_, ?_⟩
    · simp
    · simp [page_status, get_page_details_update_page_status, hget]
    · simp [update_page_status_history, hhist]
  | some md =>
    have hm : (md.length == 0) = true := by simpa using hempty
    refine ⟨?_, ?_, ?_⟩
    · simp [hm]
    · simp [hm, page_status, get_page_details_update_page_status, hget]
    · simp [hm, update_page_status_history, hhist]

/-- Witness for C2 (amended): empty-content backend on a fresh URL. -/
theorem failed_crawl_witness :
    is_valid_url urlA = true ∧
    get_page_details (freshService backendEmpty).database urlA = none ∧
    (freshService backendEmpty).firecrawl urlA crawlScrapeConfig
        = FetchResult.ok (some "") ∧
    (((some "" : Option String)).isNone
        || (((some "" : Option String)).getD "").length == 0) = true ∧
    ((crawl_page_url (freshService backendEmpty) urlA).1
        = Except.error (PyError.runtimeError "Crawling failed on the backend.") ∧
      page_status (crawl_page_url (freshService backendEmpty) urlA).2.1 urlA
        = some CrawlStatus.failed ∧
      (crawl_page_url (freshService backendEmpty) urlA).2.1.history
        = (freshService backendEmpty).database.history) :=
  ⟨by decide, by decide, rfl, by decide,
    failed_crawl (freshService backendEmpty) urlA (some "")
      (by decide) (by decide) rfl (by decide)⟩

/-- **C2 counterexample.** At the empty-content scenario input the crawl
error is raised and the page fails, yet the history table stays empty:
there is no failure CrawlHistory row carrying an error detail. -/
theorem failed_crawl_no_history_row :
    (crawl_page_url (freshService backendEmpty) urlA).1
        = Except.error (PyError.runtimeError "Crawling failed on the backend.") ∧
    page_status (crawl_page_url (freshService backendEmpty) urlA).2.1 urlA
        = some CrawlStatus.failed ∧
    ¬ ((crawl_page_url (freshService backendEmpty) urlA).2.1.history.length
        = 1) :=
  ⟨by rfl, by decide, by decide⟩

/-- **C8.** In every execution of `crawl_page_url` that reaches the
external fetch for a newly registered URL, the page's stored status at the
instant the backend is invoked is QUEUED: the code never assigns CRAWLING
before (or after) the fetch, so a page is always observed QUEUED while its
fetch is in flight. -/
theorem fetch_invoked_while_queued (svc : WebService) (u : Url)
    (hv : is_valid_url u = true)
    (hnew : get_page_details svc.database u = none) :
    (crawl_page_url svc u).2.2.map (fun c => page_status c.db_at_call u)
      = [some CrawlStatus.queued] := by
  obtain ⟨hhist, np, hget, hurl, hstat, hcont⟩ :=
    registeredDB_spec svc.database u hnew
  have hps : page_status (registeredDB svc.database u) u
      = some CrawlStatus.queued := by
    simp [page_status, hget, hstat]
  rw [crawl_page_url_fresh_eq svc u hv hnew]
  cases hfr : svc.firecrawl u crawlScrapeConfig with
  | exn e =>
    by_cases he : e.caughtByValueError = true <;> simp [he, hps]
  | ok markdown =>
    by_cases hm : (markdown.isNone || (markdown.getD "").length == 0) = true <;>
      simp [hm, hps]

/-- Witness for C8: the one backend invocation of a fresh crawl sees the
page QUEUED. -/
theorem fetch_invoked_while_queued_witness :
    is_valid_url urlA = true ∧
    get_page_details (freshService backendContent).database urlA = none ∧
    (crawl_page_url (freshService backendContent) urlA).2.2.map
        (fun c => page_status c.db_at_call urlA)
      = [some CrawlStatus.queued] :=
  ⟨by decide, by decide,
    fetch_invoked_while_queued (freshService backendContent) urlA
      (by decide) (by decide)⟩

/-- **C9 (amended).** For a fresh valid URL, absent/empty content and
`ValueError`-class transport faults set the page FAILED before the error is
surfaced, but any other exception raised by the fetch call escapes the
`except ValueError` clause and is surfaced with the page still QUEUED; in
every failure mode the call surfaces an error. -/
theorem backend_failure_status (svc : WebService) (u : Url) (r : FetchResult)
    (hv : is_valid_url u = true)
    (hnew : get_page_details svc.database u = none)
    (hf : svc.firecrawl u crawlScrapeConfig = r) :
    page_status (crawl_page_url svc u).2.1 u
        = some (expectedStatusAfterFetch r) ∧
    (fetchFailed r = true →
      ∃ e, (crawl_page_url svc u).1 = Except.error e) := by
  obtain ⟨hhist, np, hget, hurl, hstat, hcont⟩ :=
    registeredDB_spec svc.database u hnew
  have hsvq : page_status (registeredDB svc.database u) u
      = some CrawlStatus.queued := by
    simp [page_status, hget, hstat]
  rw [crawl_page_url_fresh_eq svc u hv hnew, hf]
  cases r with
  | exn e =>
    by_cases he : e.caughtByValueError = true
    · refine ⟨?_, fun _ => ⟨e, ?_⟩⟩
      · simp [he, expectedStatusAfterFetch, page_status,
          get_page_details_update_page_status, hget]
      · simp [he]
    · refine ⟨?_, fun _ => ⟨e, ?_⟩⟩
      · simp [he, expectedStatusAfterFetch, hsvq]
      · simp [he]
  | ok markdown =>
    cases markdown with
    | none =>
      refine ⟨?_, fun _ =>
        ⟨PyError.runtimeError "Crawling failed on the backend.", ?_⟩⟩
      · simp [expectedStatusAfterFetch, page_status,
          get_page_details_update_page_status, hget]
      · simp
    | some md =>
      by_cases hm : (md.length == 0) = true
      · refine ⟨?_, fun _ =>
          ⟨PyError.runtimeError "Crawling failed on the backend.", ?_⟩⟩
        · simp [hm, expectedStatusAfterFetch, page_status,
            get_page_details_update_page_status, hget]
        · simp [hm]
      · have hsv := get_page_details_save_page_content
          (registeredDB svc.database u) u md none
        rw [hget] at hsv
        refine ⟨?_, fun hfl => absurd hfl ?_⟩
        · simp [hm, expectedStatusAfterFetch, page_status, hsv]
        · simp [fetchFailed, hm]

/-- Witness for C9 (amended): a non-`ValueError` transport fault leaves the
page QUEUED and surfaces the exception. -/
theorem backend_failure_status_witness :
    is_valid_url urlA = true ∧
    get_page_details (freshService backendTransportFault).database urlA = none ∧
    (freshService backendTransportFault).firecrawl urlA crawlScrapeConfig
        = FetchResult.exn (PyError.otherError "connection reset by backend") ∧
    (page_status (crawl_page_url (freshService backendTransportFault) urlA).2.1
          urlA
        = some (expectedStatusAfterFetch
            (FetchResult.exn (PyError.otherError "connection reset by backend"))) ∧
      (fetchFailed (FetchResult.exn
            (PyError.otherError "connection reset by backend")) = true →
        ∃ e, (crawl_page_url (freshService backendTransportFault) urlA).1
          = Except.error e)) :=
  ⟨by decide, by decide, rfl,
    backend_failure_status (freshService backendTransportFault) urlA
      (FetchResult.exn (PyError.otherError "connection reset by backend"))
      (by decide) (by decide) rfl⟩

/-- **C9 counterexample.** A transport-level fault that is not a
`ValueError` — here a connection reset — escapes the orchestrator's
`except ValueError` clause: the exception is surfaced but the page is left
QUEUED, not set to FAILED. -/
theorem transport_fault_leaves_queued :
    (crawl_page_url (freshService backendTransportFault) urlA).1
        = Except.error (PyError.otherError "connection reset by backend") ∧
    ¬ (page_status (crawl_page_url (freshService backendTransportFault)
          urlA).2.1 urlA
        = some CrawlStatus.failed) :=
  ⟨by rfl, by decide⟩

/-- **C4 (amended).** For every valid URL that already has a Page row,
`crawl_page_url` does not invoke the fetch backend and leaves the store
untouched; it returns the persisted content and updated-at timestamp when
content is present, but — contrary to the original claim — raises
pydantic's DTO validation error instead of returning when the persisted
content is absent (the failure path), since `PageDTO.content_markdown`
cannot be absent.  Across two consecutive calls for the same URL the
backend is invoked at most once. -/
theorem registered_url_no_refetch (svc : WebService) (u : Url)
    (hv : is_valid_url u = true) :
    (∀ p, get_page_details svc.database u = some p →
      (crawl_page_url svc u).2.2 = [] ∧
      (crawl_page_url svc u).2.1 = svc.database ∧
      (crawl_page_url svc u).1 =
        (match p.content_markdown with
         | some c =>
           Except.ok { content_markdown := c, updated_at := p.updated_at }
         | none => Except.error (PyError.validationError
             "PageDTO content_markdown must be a string"))) ∧
    (crawl_page_url svc u).2.2.length
        + (crawl_page_url
            { database := (crawl_page_url svc u).2.1,
              firecrawl := svc.firecrawl } u).2.2.length ≤ 1 := by
  have existing : ∀ (s : WebService) (p : Page),
      get_page_details s.database u = some p →
      crawl_page_url s u
        = (PageDTO.model_validate (some p), s.database, []) := by
    intro s p hp
    simp [crawl_page_url, hv, hp]
  constructor
  · intro p hp
    rw [existing svc p hp]
    refine ⟨rfl, rfl, ?_⟩
    cases hc : p.content_markdown <;> simp [PageDTO.model_validate, hc]
  · cases hg : get_page_details svc.database u with
    | some p =>
      rw [existing svc p hg]
      rw [existing { database := svc.database, firecrawl := svc.firecrawl } p hg]
      simp
    | none =>
      obtain ⟨q, hq⟩ := Option.isSome_iff_exists.mp
        (crawl_page_url_registers svc u hv hg)
      rw [existing
        { database := (crawl_page_url svc u).2.1,
          firecrawl := svc.firecrawl } q hq]
      rw [crawl_page_url_fresh_eq svc u hv hg]
      cases hfr : svc.firecrawl u crawlScrapeConfig with
      | exn e =>
        by_cases he : e.caughtByValueError = true <;> simp [he]
      | ok markdown =>
        by_cases hm : (markdown.isNone || (markdown.getD "").length == 0) = true <;>
          simp [hm]

/-- Witness for C4 (amended): a service whose store already holds the page
for `urlA` performs no fetch in either of two consecutive calls. -/
theorem registered_url_no_refetch_witness :
    is_valid_url urlA = true ∧
    get_page_details svcReg.database urlA
        = some (add_page emptyDB urlA "example.com" CrawlStatus.queued).1 ∧
    (crawl_page_url svcReg urlA).2.2 = [] ∧
    (crawl_page_url svcReg urlA).2.2.length
        + (crawl_page_url
            { database := (crawl_page_url svcReg urlA).2.1,
              firecrawl := svcReg.firecrawl } urlA).2.2.length ≤ 1 :=
  ⟨by decide, by decide,
    ((registered_url_no_refetch svcReg urlA (by decide)).1
      (add_page emptyDB urlA "example.com" CrawlStatus.queued).1 (by decide)).1,
    (registered_url_no_refetch svcReg urlA (by decide)).2⟩

/-- **C4 counterexample.** After a failed crawl the page is registered in
FAILED status with no content; a second call for the same URL indeed
performs no fetch, but instead of returning the (absent) content it raises
the DTO validation error — refuting the claimed content-absent return on
the failure path. -/
theorem registered_failure_path_raises :
    page_status (crawl_page_url (freshService backendEmpty) urlA).2.1 urlA
        = some CrawlStatus.failed ∧
    (crawl_page_url
        { database := (crawl_page_url (freshService backendEmpty) urlA).2.1,
          firecrawl := backendEmpty } urlA).2.2 = [] ∧
    (crawl_page_url
        { database := (crawl_page_url (freshService backendEmpty) urlA).2.1,
          firecrawl := backendEmpty } urlA).1
      = Except.error (PyError.validationError
          "PageDTO content_markdown must be a string") :=
  ⟨by decide, by decide, by rfl⟩

end Crawler
